import Mathlib

/-!
# Verification of the `atomyze` particle-generation and animation core

Shallow embedding of the TypeScript sources:

* `src/generators/SphereGenerator.ts`  — Fibonacci-lattice sphere surface
  sampler and rejection-sampling volume sampler;
* `src/generators/ModelGenerator.ts`   — mesh-vertex extraction with a hard
  vertex ceiling and stride sampling, and count resampling;
* `src/core/ParticleSystem.ts`         — cloud validation, connection-graph
  construction and the per-tick animation / pointer-interaction update.

Modelling conventions:

* JavaScript numbers are modelled as exact rationals `ℚ`; float rounding is
  out of scope.
* A JavaScript division whose divisor is `0` produces `NaN` / `Infinity`;
  divisions whose result feeds a coordinate are modelled by `jsDiv`, which
  returns `none` there, and `none` propagates ("NaN poisoning").
* `Math.sin`, `Math.cos`, `Math.sqrt` and the irrational constant
  `goldenAngle = π(3−√5)` have no exact rational counterpart, so they are
  passed as explicit function / constant parameters; theorems assume the
  algebraic identities (`sin² + cos² = 1`, `sqrt x ^ 2 = x`) these functions
  satisfy over the reals, on exactly the arguments the code feeds them.
* JavaScript truthiness defaulting `x || d` (which replaces both `undefined`
  and `0` by `d`) is modelled by `jsOr` / `jsOrOpt` / `jsOrNat`.
* `Math.random()` is modelled as an explicit stream `ℕ → ℚ` of draws.
-/

namespace Atomyze

/-- JavaScript `x || d` on a number already present: `0` is falsy. -/
def jsOr (x d : ℚ) : ℚ := if x = 0 then d else x

/-- JavaScript `x || d` on an optional number: `undefined` and `0` are falsy. -/
def jsOrOpt (x : Option ℚ) (d : ℚ) : ℚ :=
  match x with
  | none => d
  | some v => jsOr v d

/-- JavaScript `x || d` on an optional natural count. -/
def jsOrNat (x : Option ℕ) (d : ℕ) : ℕ :=
  match x with
  | none => d
  | some v => if v = 0 then d else v

/-- JavaScript division; a zero divisor yields `NaN`/`Infinity`, modelled
as `none`. -/
def jsDiv (a b : ℚ) : Option ℚ := if b = 0 then none else some (a / b)

/-- `ShapeOptions` (src/types/index.ts): `count` and `params?.radius`,
both optional.  Only the fields the sphere generator reads are modelled. -/
structure ShapeOptions where
  count : Option ℕ
  radius : Option ℚ
deriving DecidableEq

namespace SphereGenerator

/-- The `y` coordinate computed at loop index `i`
(`src/generators/SphereGenerator.ts:30`): `y = 1 - (i / (count - 1)) * 2`. -/
def sphereY (count i : ℕ) : ℚ := 1 - ((i : ℚ) / ((count : ℚ) - 1)) * 2

/-- The body of the `generate` loop
(`src/generators/SphereGenerator.ts:28-44`), iterated over the index list.
`jsDiv` models the division `i / (count - 1)`, which is `NaN` when
`count = 1`. -/
def generateLoop (sinF cosF sqrtF : ℚ → ℚ) (goldenAngle radius : ℚ)
    (count : ℕ) : List ℕ → Option (List (ℚ × ℚ × ℚ))
  | [] => some []
  | i :: rest =>
    match jsDiv (i : ℚ) ((count : ℚ) - 1) with
    | none => none
    | some q =>
      let y := 1 - q * 2
      let radiusAtY := sqrtF (1 - y * y)
      let theta := goldenAngle * (i : ℚ)
      let x := cosF theta * radiusAtY
      let z := sinF theta * radiusAtY
      match generateLoop sinF cosF sqrtF goldenAngle radius count rest with
      | none => none
      | some ps => some ((x * radius, y * radius, z * radius) :: ps)

/-- `SphereGenerator.generate` (src/generators/SphereGenerator.ts:19-47).
`count = options.count || 1000`, `radius = options.params?.radius || 1`. -/
def generate (sinF cosF sqrtF : ℚ → ℚ) (goldenAngle : ℚ)
    (opts : ShapeOptions) : Option (List (ℚ × ℚ × ℚ)) :=
  let count := jsOrNat opts.count 1000
  let radius := jsOrOpt opts.radius 1
  generateLoop sinF cosF sqrtF goldenAngle radius count (List.range count)

/-- Behaviour of the `generate` loop body on any index list whose indices the
supplied `sqrtF` handles as a real square root would: every division
succeeds (for `count ≥ 2`), one point per index is produced, and each point's
squared norm is `radius ^ 2`. -/
theorem generateLoop_spec (sinF cosF sqrtF : ℚ → ℚ) (goldenAngle radius : ℚ)
    (count : ℕ) (hc : 2 ≤ count)
    (hPyth : ∀ θ, sinF θ ^ 2 + cosF θ ^ 2 = 1)
    (is : List ℕ)
    (hSqrt : ∀ i ∈ is,
      sqrtF (1 - sphereY count i * sphereY count i) ^ 2
        = 1 - sphereY count i * sphereY count i) :
    ∃ l, generateLoop sinF cosF sqrtF goldenAngle radius count is = some l ∧
      l.length = is.length ∧
      ∀ p ∈ l, p.1 ^ 2 + p.2.1 ^ 2 + p.2.2 ^ 2 = radius ^ 2 := by
  induction is with
  | nil => exact ⟨[], rfl, rfl, by simp⟩
  | cons i rest ih =>
    obtain ⟨l, hl, hlen, hnorm⟩ :=
      ih (fun j hj => hSqrt j (List.mem_cons_of_mem _ hj))
    have hden : ((count : ℚ) - 1) ≠ 0 := by
      have h2 : (2 : ℚ) ≤ (count : ℚ) := by exact_mod_cast hc
      linarith
    have hs := hSqrt i (List.mem_cons_self _ _)
    refine ⟨(cosF (goldenAngle * (i : ℚ)) * sqrtF (1 - sphereY count i * sphereY count i) * radius,
        sphereY count i * radius,
        sinF (goldenAngle * (i : ℚ)) * sqrtF (1 - sphereY count i * sphereY count i) * radius) :: l,
      ?_, by simp [hlen], ?_⟩
    · simp [generateLoop, jsDiv, hden, hl, sphereY]
    · intro p hp
      rcases List.mem_cons.mp hp with hp | hp
      · subst hp
        simp only
        linear_combination
          radius ^ 2 * (sqrtF (1 - sphereY count i * sphereY count i)) ^ 2 *
            hPyth (goldenAngle * (i : ℚ)) + radius ^ 2 * hs
      · exact hnorm p hp

/-- C1: for every effective `count ≥ 2` and every nonnegative effective
`radius`, `SphereGenerator.generate` returns exactly `count` points and every
point `(x, y, z)` satisfies `x² + y² + z² = radius²` — exactly, over the
real-arithmetic identities assumed of `sin`, `cos` and `sqrt`; over the reals
this says every point lies at distance `radius` from the origin. -/
theorem sphere_surface_count_and_norm (sinF cosF sqrtF : ℚ → ℚ)
    (goldenAngle : ℚ) (opts : ShapeOptions)
    (hc : 2 ≤ jsOrNat opts.count 1000)
    (hr : 0 ≤ jsOrOpt opts.radius 1)
    (hPyth : ∀ θ, sinF θ ^ 2 + cosF θ ^ 2 = 1)
    (hSqrt : ∀ i < jsOrNat opts.count 1000,
      sqrtF (1 - sphereY (jsOrNat opts.count 1000) i * sphereY (jsOrNat opts.count 1000) i) ^ 2
        = 1 - sphereY (jsOrNat opts.count 1000) i * sphereY (jsOrNat opts.count 1000) i) :
    0 ≤ jsOrOpt opts.radius 1 ∧
    ∃ l, generate sinF cosF sqrtF goldenAngle opts = some l ∧
      l.length = jsOrNat opts.count 1000 ∧
      ∀ p ∈ l, p.1 ^ 2 + p.2.1 ^ 2 + p.2.2 ^ 2 = (jsOrOpt opts.radius 1) ^ 2 := by
  obtain ⟨l, hl, hlen, hnorm⟩ :=
    generateLoop_spec sinF cosF sqrtF goldenAngle (jsOrOpt opts.radius 1)
      (jsOrNat opts.count 1000) hc hPyth (List.range (jsOrNat opts.count 1000))
      (fun i hi => hSqrt i (List.mem_range.mp hi))
  exact ⟨hr, l, hl, by simpa using hlen, hnorm⟩

/-- A rational stand-in for `Math.sin` sufficient for the degenerate lattice
`count = 3` (where every point has `sin θ` multiplied by `0` or `θ = g·1`). -/
def sinW : ℚ → ℚ := fun _ => 0

/-- A rational stand-in for `Math.cos` paired with `sinW`. -/
def cosW : ℚ → ℚ := fun _ => 1

/-- A rational stand-in for `Math.sqrt`, exact on the arguments `0` and `1`
that arise for `count = 3`. -/
def sqrtW : ℚ → ℚ := fun x => if x = 1 then 1 else 0

/-- Witness for C1 at `count = 3`, `radius = 2`. -/
theorem sphere_surface_count_and_norm_witness :
    0 ≤ jsOrOpt (some 2) 1 ∧
    ∃ l, generate sinW cosW sqrtW 0 ⟨some 3, some 2⟩ = some l ∧
      l.length = jsOrNat (some 3) 1000 ∧
      ∀ p ∈ l, p.1 ^ 2 + p.2.1 ^ 2 + p.2.2 ^ 2 = (jsOrOpt (some 2) 1) ^ 2 :=
  sphere_surface_count_and_norm sinW cosW sqrtW 0 ⟨some 3, some 2⟩
    (by decide) (by norm_num [jsOrOpt, jsOr])
    (fun θ => by norm_num [sinW, cosW])
    (by
      intro i hi
      have hi3 : i < 3 := by simpa [jsOrNat] using hi
      interval_cases i <;> norm_num [jsOrNat, sphereY, sqrtW])

/-- C7 (code bug): at `count = 1` the loop computes `i / (count - 1) = 0 / 0`,
which is `NaN` in JavaScript; no special case exists, so the single point's
coordinates are `NaN` (modelled: the generator's result is `none`). -/
theorem sphere_surface_count_one_nan (sinF cosF sqrtF : ℚ → ℚ)
    (goldenAngle : ℚ) (r : ℚ) :
    generate sinF cosF sqrtF goldenAngle ⟨some 1, some r⟩ = none := by
  simp [generate, generateLoop, jsOrNat, jsDiv, List.range_succ]

/-- One candidate draw of the volume sampler
(`src/generators/SphereGenerator.ts:65-67`): three consecutive values of the
random stream, each mapped by `v * 2 - 1` into `[-1, 1)`. -/
def volumeDraw (rng : ℕ → ℚ) (k : ℕ) : ℚ × ℚ × ℚ :=
  (rng k * 2 - 1, rng (k + 1) * 2 - 1, rng (k + 2) * 2 - 1)

/-- The `do … while (x*x + y*y + z*z > 1)` rejection loop
(`src/generators/SphereGenerator.ts:64-68`).  The source has **no** attempt
cap: `fuel` is only the embedding's induction measure, so
`∀ fuel, rejectionLoop rng k fuel = none` states that the source loop never
exits for that stream.  On success, returns the accepted point and the next
unused stream index. -/
def rejectionLoop (rng : ℕ → ℚ) (k : ℕ) : ℕ → Option ((ℚ × ℚ × ℚ) × ℕ)
  | 0 => none
  | fuel + 1 =>
    let p := volumeDraw rng k
    if p.1 * p.1 + p.2.1 * p.2.1 + p.2.2 * p.2.2 > 1 then
      rejectionLoop rng (k + 3) fuel
    else
      some (p, k + 3)

/-- The per-particle loop of `generateVolume`
(`src/generators/SphereGenerator.ts:61-75`): run the rejection loop for each
remaining particle, scaling accepted points by `radius`. -/
def generateVolumeLoop (rng : ℕ → ℚ) (fuel : ℕ) (radius : ℚ) :
    ℕ → ℕ → Option (List (ℚ × ℚ × ℚ))
  | 0, _ => some []
  | n + 1, k =>
    match rejectionLoop rng k fuel with
    | none => none
    | some ((x, y, z), k2) =>
      match generateVolumeLoop rng fuel radius n k2 with
      | none => none
      | some ps => some ((x * radius, y * radius, z * radius) :: ps)

/-- `SphereGenerator.generateVolume` (src/generators/SphereGenerator.ts:55-78),
parameterized by the random stream and the embedding's fuel. -/
def generateVolume (rng : ℕ → ℚ) (fuel : ℕ)
    (opts : ShapeOptions) : Option (List (ℚ × ℚ × ℚ)) :=
  let count := jsOrNat opts.count 1000
  let radius := jsOrOpt opts.radius 1
  generateVolumeLoop rng fuel radius count 0

/-- A pathological but legal random stream (`Math.random()` ranges over
`[0, 1)`): every draw is `0.99`, so every candidate point is
`(0.98, 0.98, 0.98)`, whose squared norm `3·(49/50)² = 7203/2500` exceeds 1. -/
def rngStuck : ℕ → ℚ := fun _ => 99 / 100

/-- C9 (code bug): the rejection loop has no attempt cap and no boundary
fallback, so on a random source that never produces an in-sphere sample it
never terminates — for every fuel bound the loop is still running — and
`generateVolume` is not total. -/
theorem volume_rejection_never_terminates :
    (∀ fuel k, rejectionLoop rngStuck k fuel = none) ∧
    ∀ fuel, generateVolume rngStuck fuel ⟨some 1, some 1⟩ = none := by
  have hloop : ∀ fuel k, rejectionLoop rngStuck k fuel = none := by
    intro fuel
    induction fuel with
    | zero => intro k; rfl
    | succ n ih => intro k; norm_num [rejectionLoop, volumeDraw, rngStuck, ih]
  refine ⟨hloop, fun fuel => ?_⟩
  simp [generateVolume, generateVolumeLoop, jsOrNat, hloop]

end SphereGenerator

namespace ModelGenerator

/-- The extraction hard vertex ceiling
(`src/generators/ModelGenerator.ts:143`): `const maxVertices = 15000`. -/
def maxVertices : ℕ := 15000

/-- The resample cap (`src/generators/ModelGenerator.ts:223`):
`const maxParticles = 1000`. -/
def maxParticles : ℕ := 1000

/-- One mesh part of the traversed scene: its raw vertex stream and its
world transform (`child.matrixWorld`, data owned by the external loader,
modelled as an abstract map on points). -/
structure MeshPart where
  verts : List (ℚ × ℚ × ℚ)
  transform : ℚ × ℚ × ℚ → ℚ × ℚ × ℚ

/-- First pass (`src/generators/ModelGenerator.ts:147-154`): sum the vertex
counts over all mesh parts. -/
def totalVertexCount (parts : List MeshPart) : ℕ :=
  (parts.map (fun p => p.verts.length)).sum

/-- `Math.max(1, Math.ceil(totalVertexCount / maxVertices))`
(`src/generators/ModelGenerator.ts:159`). -/
def samplingStep (total : ℕ) : ℕ :=
  max 1 (Int.toNat ⌈(total : ℚ) / (maxVertices : ℚ)⌉)

/-- The strided, transformed, scaled vertex stream of one part
(`src/generators/ModelGenerator.ts:169-181`): the loop
`for (i = 0; i < count; i += samplingStep)` visits exactly the indices with
`i % samplingStep = 0` (the step is ≥ 1 by construction). -/
def partStrided (step : ℕ) (scale : ℚ) (p : MeshPart) : List (ℚ × ℚ × ℚ) :=
  ((List.range p.verts.length).filter (fun i => i % step = 0)).map
    (fun i =>
      let v := p.transform (p.verts.getD i ((0 : ℚ), (0 : ℚ), (0 : ℚ)))
      (v.1 * scale, v.2.1 * scale, v.2.2 * scale))

/-- The inner extraction loop with the mid-traversal ceiling check
(`src/generators/ModelGenerator.ts:173-183`): before each push, break when
`vertices.length / 3 >= maxVertices`. -/
def extractLoop : List (ℚ × ℚ × ℚ) → List ℚ → List ℚ
  | [], acc => acc
  | v :: rest, acc =>
    if maxVertices ≤ acc.length / 3 then acc
    else extractLoop rest (acc ++ [v.1, v.2.1, v.2.2])

/-- The two-pass raw extraction (`src/generators/ModelGenerator.ts:141-185`),
before the length adjustment and optional resampling. -/
def extractRaw (parts : List MeshPart) (scale : ℚ) : List ℚ :=
  let step := samplingStep (totalVertexCount parts)
  parts.foldl (fun acc p => extractLoop (partStrided step scale p) acc) []

/-- Downsampling branch (`src/generators/ModelGenerator.ts:241-255`):
nearest-index decimation `sourceIndex = floor(i * originalCount/target) * 3`,
with the source's bounds guard (a failed guard leaves the zero-initialized
`Float32Array` slot, i.e. the triple `[0, 0, 0]`). -/
def resampleDown (buf : List ℚ) (originalCount finalTargetCount : ℕ) :
    List ℚ :=
  (List.range finalTargetCount).flatMap (fun i =>
    let step : ℚ := (originalCount : ℚ) / (finalTargetCount : ℚ)
    let sourceIndex := (⌊(i : ℚ) * step⌋).toNat * 3
    let targetIndex := i * 3
    if sourceIndex + 2 < buf.length ∧ targetIndex + 2 < finalTargetCount * 3
    then [buf.getD sourceIndex 0, buf.getD (sourceIndex + 1) 0,
          buf.getD (sourceIndex + 2) 0]
    else [0, 0, 0])

/-- Upsampling branch (`src/generators/ModelGenerator.ts:256-271`):
`sourceIndex = (i % originalCount) * 3` plus one shared random jitter
`(rng i - 0.5) * 0.01` on all three coordinates.  (When `originalCount = 0`
the JavaScript index is `NaN` and the bounds guard fails, leaving zeros;
here the guard fails as well since `buf.length < 3`.) -/
def resampleUp (rng : ℕ → ℚ) (buf : List ℚ)
    (originalCount finalTargetCount : ℕ) : List ℚ :=
  (List.range finalTargetCount).flatMap (fun i =>
    let sourceIndex := (i % originalCount) * 3
    let targetIndex := i * 3
    let offset := (rng i - 1/2) * (1/100)
    if sourceIndex + 2 < buf.length ∧ targetIndex + 2 < finalTargetCount * 3
    then [buf.getD sourceIndex 0 + offset, buf.getD (sourceIndex + 1) 0 + offset,
          buf.getD (sourceIndex + 2) 0 + offset]
    else [0, 0, 0])

/-- `ModelGenerator.resampleVertices` (src/generators/ModelGenerator.ts:221-283).
`Math.floor` on the already-integral `safeTargetCount` is the identity; the
`throw` at line 231 is modelled as `none`. -/
def resampleVertices (rng : ℕ → ℚ) (buf : List ℚ) (targetCount : ℕ) :
    Option (List ℚ) :=
  let safeTargetCount := min targetCount maxParticles
  let finalTargetCount := safeTargetCount
  if 50000 < finalTargetCount * 3 then none
  else
    let originalCount := buf.length / 3
    if finalTargetCount ≤ originalCount then
      some (resampleDown buf originalCount finalTargetCount)
    else
      some (resampleUp rng buf originalCount finalTargetCount)

/-- The condition of the `console.warn` at
src/generators/ModelGenerator.ts:274-276: the requested count was reduced
(`finalTargetCount < targetCount`). -/
def resampleReducedWarning (targetCount : ℕ) : Bool :=
  decide (min targetCount maxParticles < targetCount)

/-- `ModelGenerator.extractVertices` (src/generators/ModelGenerator.ts:140-213):
raw extraction, the multiple-of-3 length adjustment, the 60000-element budget
check (`throw`, modelled as `none`), and the optional resample when a truthy
`options.particleCount` differs from the extracted count. -/
def extractVertices (rng : ℕ → ℚ) (parts : List MeshPart)
    (scaleOpt : Option ℚ) (particleCountOpt : Option ℕ) : Option (List ℚ) :=
  let scale := jsOrOpt scaleOpt 1
  let vertices := extractRaw parts scale
  let extractedParticleCount := vertices.length / 3
  let validLength := extractedParticleCount * 3
  let vertices := vertices.take validLength
  if 60000 < validLength then none
  else
    let targetParticleCount :=
      match particleCountOpt with
      | some pc => if pc = 0 then extractedParticleCount
                   else min pc maxVertices
      | none => extractedParticleCount
    if targetParticleCount ≠ extractedParticleCount then
      resampleVertices rng vertices targetParticleCount
    else
      some vertices

/-- The inner extraction loop keeps the buffer a multiple of 3 and never
grows it past `3 * maxVertices`. -/
theorem extractLoop_length_le : ∀ (pts : List (ℚ × ℚ × ℚ)) (acc : List ℚ),
    3 ∣ acc.length → acc.length ≤ 3 * maxVertices →
    (extractLoop pts acc).length ≤ 3 * maxVertices ∧
      3 ∣ (extractLoop pts acc).length
  | [], acc, h3, hle => ⟨hle, h3⟩
  | v :: rest, acc, h3, hle => by
    rw [extractLoop]
    by_cases hb : maxVertices ≤ acc.length / 3
    · rw [if_pos hb]
      exact ⟨hle, h3⟩
    · rw [if_neg hb]
      refine extractLoop_length_le rest _ ?_ ?_
      · simp only [List.length_append, List.length_cons, List.length_nil]
        omega
      · simp only [List.length_append, List.length_cons, List.length_nil,
          maxVertices] at h3 hb ⊢
        omega

/-- The raw extraction never exceeds `3 * maxVertices` elements and its
length is a multiple of 3. -/
theorem extractRaw_length_le (parts : List MeshPart) (scale : ℚ) :
    (extractRaw parts scale).length ≤ 3 * maxVertices ∧
      3 ∣ (extractRaw parts scale).length := by
  have main : ∀ (step : ℕ) (ps : List MeshPart) (acc : List ℚ),
      3 ∣ acc.length → acc.length ≤ 3 * maxVertices →
      ((ps.foldl (fun acc p => extractLoop (partStrided step scale p) acc)
        acc).length ≤ 3 * maxVertices ∧
        3 ∣ (ps.foldl (fun acc p => extractLoop (partStrided step scale p) acc)
          acc).length) := by
    intro step ps
    induction ps with
    | nil => intro acc h3 hle; exact ⟨hle, h3⟩
    | cons p rest ih =>
      intro acc h3 hle
      obtain ⟨hle', h3'⟩ :=
        extractLoop_length_le (partStrided step scale p) acc h3 hle
      exact ih _ h3' hle'
  simpa [extractRaw] using
    main (samplingStep (totalVertexCount parts)) parts [] (by simp) (by simp)

/-- C4: the sampling stride is `max(1, ceil(total / 15000))`, the extracted
particle count never exceeds the hard ceiling 15000, extraction without a
requested `targetParticleCount` returns the raw stride-sampled buffer
unresampled, and for `total = 50000` the stride is 4. -/
theorem extract_stride_and_cap (rng : ℕ → ℚ) (parts : List MeshPart)
    (scaleOpt : Option ℚ) :
    samplingStep (totalVertexCount parts)
        = max 1 (Int.toNat ⌈(totalVertexCount parts : ℚ) / 15000⌉) ∧
    (extractRaw parts (jsOrOpt scaleOpt 1)).length / 3 ≤ 15000 ∧
    extractVertices rng parts scaleOpt none
        = some (extractRaw parts (jsOrOpt scaleOpt 1)) ∧
    samplingStep 50000 = 4 := by
  obtain ⟨hle, h3⟩ := extractRaw_length_le parts (jsOrOpt scaleOpt 1)
  refine ⟨rfl, ?_, ?_, ?_⟩
  · simp only [maxVertices] at hle
    omega
  · have hlen3 : (extractRaw parts (jsOrOpt scaleOpt 1)).length / 3 * 3
        = (extractRaw parts (jsOrOpt scaleOpt 1)).length :=
      Nat.div_mul_cancel h3
    have hno : ¬ (60000 <
        (extractRaw parts (jsOrOpt scaleOpt 1)).length / 3 * 3) := by
      simp only [maxVertices] at hle
      omega
    simp only [extractVertices, hlen3, List.take_length]
    simp only [maxVertices] at hle
    rw [if_neg (by omega), if_neg (by simp)]
  · have hceil : ⌈(50000 : ℚ) / (15000 : ℚ)⌉ = 4 := by
      rw [Int.ceil_eq_iff]
      norm_num
    simp [samplingStep, maxVertices, hceil]

/-- `getD` steps over three cons cells at once. -/
theorem getD_cons_three (a b c : ℚ) (l : List ℚ) (m : ℕ) :
    (a :: b :: c :: l).getD (m + 3) 0 = l.getD m 0 := rfl

/-- Reading consecutive `getD` triples reassembles a buffer of length `3k`. -/
theorem flatMap_getD_triples (k : ℕ) : ∀ l : List ℚ, l.length = 3 * k →
    (List.range k).flatMap
      (fun i => [l.getD (3 * i) 0, l.getD (3 * i + 1) 0, l.getD (3 * i + 2) 0])
      = l := by
  induction k with
  | zero =>
    intro l hl
    have hnil : l = [] := List.eq_nil_of_length_eq_zero (by omega)
    simp [hnil]
  | succ n ih =>
    intro l hl
    rcases l with _ | ⟨a, _ | ⟨b, _ | ⟨c, rest⟩⟩⟩ <;>
      simp only [List.length_nil, List.length_cons] at hl
    · omega
    · omega
    · omega
    have hr : rest.length = 3 * n := by omega
    rw [List.range_succ_eq_map, List.flatMap_cons, List.flatMap_map]
    have hcong : (List.range n).flatMap
        (fun i => [(a :: b :: c :: rest).getD (3 * (i + 1)) 0,
          (a :: b :: c :: rest).getD (3 * (i + 1) + 1) 0,
          (a :: b :: c :: rest).getD (3 * (i + 1) + 2) 0])
        = (List.range n).flatMap
        (fun i => [rest.getD (3 * i) 0, rest.getD (3 * i + 1) 0,
          rest.getD (3 * i + 2) 0]) := by
      apply List.flatMap_congr
      intro i _
      have e0 : 3 * (i + 1) = 3 * i + 3 := by ring
      have e1 : 3 * i + 3 + 1 = 3 * i + 1 + 3 := by ring
      have e2 : 3 * i + 3 + 2 = 3 * i + 2 + 3 := by ring
      rw [e0, e1, e2, getD_cons_three, getD_cons_three, getD_cons_three]
    rw [hcong, ih rest hr]
    rfl

/-- A `flatMap` over `range k` whose body always emits three elements has
length `3k`. -/
theorem length_flatMap_const3 (k : ℕ) (f : ℕ → List ℚ)
    (hf : ∀ i, (f i).length = 3) :
    ((List.range k).flatMap f).length = 3 * k := by
  induction k with
  | zero => rfl
  | succ n ih =>
    rw [List.range_succ, List.flatMap_append, List.length_append, ih]
    simp only [List.flatMap_cons, List.flatMap_nil, List.append_nil, hf]
    omega

/-- The downsampling branch emits exactly `3 · finalTargetCount` elements. -/
theorem resampleDown_length (buf : List ℚ) (oc ft : ℕ) :
    (resampleDown buf oc ft).length = 3 * ft := by
  apply length_flatMap_const3
  intro i
  dsimp only [resampleDown]
  split <;> rfl

/-- The upsampling branch emits exactly `3 · finalTargetCount` elements. -/
theorem resampleUp_length (rng : ℕ → ℚ) (buf : List ℚ) (oc ft : ℕ) :
    (resampleUp rng buf oc ft).length = 3 * ft := by
  apply length_flatMap_const3
  intro i
  dsimp only [resampleUp]
  split <;> rfl

/-- Resampling a buffer that already holds exactly `k` particles (`k` within
the cap) is a no-op under any random stream: `target = extracted` lands in
the downsample branch with `step = 1`, which copies every triple and applies
no jitter. -/
theorem resample_noop (rng2 : ℕ → ℚ) (l : List ℚ) (k : ℕ)
    (hcap : k ≤ maxParticles) (hlen : l.length = 3 * k) :
    resampleVertices rng2 l k = some l := by
  have hmin : min k maxParticles = k := Nat.min_eq_left hcap
  have hthrow : ¬ (50000 < k * 3) := by
    simp only [maxParticles] at hcap
    omega
  simp only [resampleVertices, hmin, hlen]
  have hoc : 3 * k / 3 = k := by omega
  rw [if_neg hthrow, hoc, if_pos (le_refl k)]
  rcases Nat.eq_zero_or_pos k with hk | hk
  · subst hk
    have hnil : l = [] := List.eq_nil_of_length_eq_zero (by omega)
    simp [hnil, resampleDown]
  · congr 1
    rw [resampleDown]
    refine Eq.trans (List.flatMap_congr ?_) (flatMap_getD_triples k _ hlen)
    intro i hi
    have hik : i < k := List.mem_range.mp hi
    have hk0 : (k : ℚ) ≠ 0 := Nat.cast_ne_zero.mpr hk.ne'
    dsimp only
    rw [div_self hk0, mul_one, Int.floor_natCast, Int.toNat_natCast]
    have hguard : i * 3 + 2 < l.length ∧ i * 3 + 2 < k * 3 := by
      rw [hlen]
      omega
    rw [if_pos hguard, Nat.mul_comm i 3]

/-- C5: for **every** buffer and every `k` within the resample cap,
`resample(resample(buf, k), k)` succeeds and has length `3k` — in the
upsample case (`k >` extracted count) as well as the downsample case —
and the second application returns the first's output unchanged under
**any** random stream: the intermediate buffer already has exactly `k`
particles, so the second resample is a deterministic `step = 1` decimation
with no jitter (covering in particular the claim's downsample / no-op
clause). -/
theorem resample_idempotent (rng rng2 : ℕ → ℚ) (buf : List ℚ) (k : ℕ)
    (hcap : k ≤ maxParticles) :
    ∃ l, resampleVertices rng buf k = some l ∧ l.length = 3 * k ∧
      resampleVertices rng2 l k = some l := by
  have hmin : min k maxParticles = k := Nat.min_eq_left hcap
  have hthrow : ¬ (50000 < k * 3) := by
    simp only [maxParticles] at hcap
    omega
  by_cases hdown : k ≤ buf.length / 3
  · refine ⟨resampleDown buf (buf.length / 3) k, ?_,
      resampleDown_length _ _ _,
      resample_noop rng2 _ k hcap (resampleDown_length _ _ _)⟩
    simp only [resampleVertices, hmin]
    rw [if_neg hthrow, if_pos hdown]
  · refine ⟨resampleUp rng buf (buf.length / 3) k, ?_,
      resampleUp_length _ _ _ _,
      resample_noop rng2 _ k hcap (resampleUp_length _ _ _ _)⟩
    simp only [resampleVertices, hmin]
    rw [if_neg hthrow, if_neg hdown]

/-- Witness for C5 on an upsample case: a 1-particle buffer resampled to 2
(first application duplicates, second is the identity), with different
random streams between the two applications. -/
theorem resample_idempotent_witness :
    ∃ l, resampleVertices (fun _ => 1/2) [1, 2, 3] 2 = some l ∧
      l.length = 3 * 2 ∧
      resampleVertices (fun _ => (0 : ℚ)) l 2 = some l :=
  resample_idempotent (fun _ => 1/2) (fun _ => (0 : ℚ)) [1, 2, 3] 2
    (by decide)

/-- C6: `resampleVertices` always yields exactly `min(targetCount, 1000)`
particles; the cap `maxParticles = 1000` is strictly tighter than the
extraction ceiling `maxVertices = 15000`; and the reduction is surfaced by a
warning-level signal (`console.warn`, src/generators/ModelGenerator.ts:275)
exactly when the requested count was reduced. -/
theorem resample_cap_and_warning (rng : ℕ → ℚ) (buf : List ℚ) (t : ℕ) :
    (∃ l, resampleVertices rng buf t = some l ∧
      l.length = 3 * min t maxParticles) ∧
    (resampleReducedWarning t = true ↔ maxParticles < t) ∧
    maxParticles < maxVertices := by
  refine ⟨?_, ?_, by decide⟩
  · have hthrow : ¬ (50000 < min t maxParticles * 3) := by
      simp only [maxParticles]
      omega
    by_cases hb : min t maxParticles ≤ buf.length / 3
    · refine ⟨resampleDown buf (buf.length / 3) (min t maxParticles), ?_,
        resampleDown_length _ _ _⟩
      simp only [resampleVertices]
      rw [if_neg hthrow, if_pos hb]
    · refine ⟨resampleUp rng buf (buf.length / 3) (min t maxParticles), ?_,
        resampleUp_length _ _ _ _⟩
      simp only [resampleVertices]
      rw [if_neg hthrow, if_neg hb]
  · simp only [resampleReducedWarning, decide_eq_true_eq, maxParticles]
    omega

end ModelGenerator

namespace ParticleSystem

/-- `ParticleData` (src/types/index.ts:163-181). -/
structure ParticleData where
  originalPositions : List ℚ
  positions : List ℚ
  velocities : List ℚ
  colors : List ℚ
  sizes : List ℚ
  count : ℕ
deriving DecidableEq

/-- The caller-supplied `ParticleOptions` fields the modelled methods read
(src/types/index.ts:107-144); `none` models an absent (`undefined`) field. -/
structure ParticleOptions where
  animated : Option Bool
  animationSpeed : Option ℚ
  animationRadius : Option ℚ
  connected : Option Bool
  connectionDistance : Option ℚ
  interactive : Option Bool
  mouseInfluence : Option ℚ
  mouseRadius : Option ℚ
deriving DecidableEq

/-- The options after the constructor's spread merge
(src/core/ParticleSystem.ts:28-40): every absent field receives its
default. -/
structure MergedOptions where
  animated : Bool
  animationSpeed : ℚ
  animationRadius : ℚ
  connected : Bool
  connectionDistance : ℚ
  interactive : Bool
  mouseInfluence : ℚ
  mouseRadius : ℚ
deriving DecidableEq

/-- The defaults merge `{animated: false, animationSpeed: 1.0, …, ...options}`
(src/core/ParticleSystem.ts:28-40). -/
def mergeOptions (o : ParticleOptions) : MergedOptions where
  animated := o.animated.getD false
  animationSpeed := o.animationSpeed.getD 1
  animationRadius := o.animationRadius.getD (1/10)
  connected := o.connected.getD false
  connectionDistance := o.connectionDistance.getD 1
  interactive := o.interactive.getD false
  mouseInfluence := o.mouseInfluence.getD 1
  mouseRadius := o.mouseRadius.getD 2

/-- The length validation in `initGeometry`
(src/core/ParticleSystem.ts:76-87); each failed check throws. -/
def initGeometryChecks (data : ParticleData) : Except String Unit :=
  if data.positions.length % 3 ≠ 0 then
    .error "Position data must be divisible by 3 (x,y,z components)"
  else if data.colors.length ≠ data.count * 3 then
    .error "Color data length mismatch"
  else if data.sizes.length ≠ data.count then
    .error "Size data length mismatch"
  else .ok ()

/-- The particle system state the modelled methods touch: the stored cloud,
the merged options, the working-position buffer `animatedPositions`
(initialized to a copy of `data.positions`,
src/core/ParticleSystem.ts:59), the random drift velocities (line 62-65)
and the animation clock. -/
structure SystemState where
  data : ParticleData
  options : MergedOptions
  animatedPositions : List ℚ
  velocities : List ℚ
  time : ℚ
deriving DecidableEq

/-- The `ParticleSystem` constructor (src/core/ParticleSystem.ts:26-50):
merge options, copy positions, draw velocities
(`(Math.random() - 0.5) * 0.02`, line 64), and validate the cloud —
a validation throw publishes no system. -/
def create (rng : ℕ → ℚ) (data : ParticleData) (opts : ParticleOptions) :
    Except String SystemState :=
  let options := mergeOptions opts
  let animatedPositions := data.positions
  let velocities :=
    (List.range (data.count * 3)).map (fun i => (rng i - 1/2) * (1/50))
  match initGeometryChecks data with
  | .error e => .error e
  | .ok _ =>
    .ok { data := data, options := options,
          animatedPositions := animatedPositions,
          velocities := velocities, time := 0 }

/-- Particle `i`'s stored position triple (`positions[i*3 ..= i*3+2]`). -/
def particleAt (positions : List ℚ) (i : ℕ) : ℚ × ℚ × ℚ :=
  (positions.getD (i * 3) 0, positions.getD (i * 3 + 1) 0,
   positions.getD (i * 3 + 2) 0)

/-- Squared Euclidean distance
`Math.pow(x2-x1, 2) + Math.pow(y2-y1, 2) + Math.pow(z2-z1, 2)`. -/
def distSq (p q : ℚ × ℚ × ℚ) : ℚ :=
  (q.1 - p.1) ^ 2 + (q.2.1 - p.2.1) ^ 2 + (q.2.2 - p.2.2) ^ 2

/-- `ParticleSystem.initConnections` segment construction
(src/core/ParticleSystem.ts:200-246): for `i < j` (the inner loop runs
`j = i+1 … count-1`), emit both endpoints when
`Math.sqrt(distSq) <= maxDistance`, with
`maxDistance = connectionDistance || 1.0` (line 205). -/
def connectionSegments (sqrtF : ℚ → ℚ) (data : ParticleData)
    (options : MergedOptions) : List ℚ :=
  let maxDistance := jsOr options.connectionDistance 1
  (List.range data.count).flatMap (fun i =>
    let p1 := particleAt data.positions i
    ((List.range data.count).drop (i + 1)).flatMap (fun j =>
      let p2 := particleAt data.positions j
      let distance := sqrtF (distSq p1 p2)
      if distance ≤ maxDistance then
        [p1.1, p1.2.1, p1.2.2, p2.1, p2.2.1, p2.2.2]
      else []))

/-- Follows the spec's words (§4.5 / §3 ConnectionGraph): the ordered
endpoint sequence of every pair `(i, j)`, `i < j`, whose Euclidean distance
is at most `m`; over the reals `sqrt d ≤ m ↔ 0 ≤ m ∧ d ≤ m²`, which is how
the comparison is encoded exactly over `ℚ`. -/
def specSegments (positions : List ℚ) (count : ℕ) (m : ℚ) : List ℚ :=
  (List.range count).flatMap (fun i =>
    let p1 := particleAt positions i
    ((List.range count).drop (i + 1)).flatMap (fun j =>
      let p2 := particleAt positions j
      if 0 ≤ m ∧ distSq p1 p2 ≤ m ^ 2 then
        [p1.1, p1.2.1, p1.2.2, p2.1, p2.2.1, p2.2.2]
      else []))

/-- One particle's new position in `ParticleSystem.update`
(src/core/ParticleSystem.ts:259-314).  The pointer argument is the world
point `mouseInfluenceVector` after the camera unprojection of lines 285-291
(owned by the excluded renderer collaborator).  The divisions
`force`'s `distance / mouseRadius` and `dir = Δ / distance` use `jsDiv`:
at `distance = 0` the source computes `0 / 0 = NaN`. -/
def particleTick (sinF cosF sqrtF : ℚ → ℚ) (options : MergedOptions)
    (positions : List ℚ) (time : ℚ) (pointer : Option (ℚ × ℚ × ℚ))
    (i : ℕ) : Option (ℚ × ℚ × ℚ) :=
  let original := particleAt positions i
  let base :=
    if options.animated then
      let animRadius := jsOr options.animationRadius (1/10)
      (original.1 + sinF (time + i * (1/10)) * animRadius,
       original.2.1 + cosF (time + i * (3/20)) * animRadius * (1/2),
       original.2.2 + sinF (time + i * (1/5)) * animRadius * (3/10))
    else original
  match pointer with
  | none => some base
  | some m =>
    if options.interactive then
      let mouseInfluence := jsOr options.mouseInfluence 1
      let mouseRadius := jsOr options.mouseRadius 2
      let distance := sqrtF (distSq m base)
      if distance < mouseRadius then
        match jsDiv distance mouseRadius, jsDiv (base.1 - m.1) distance,
          jsDiv (base.2.1 - m.2.1) distance,
          jsDiv (base.2.2 - m.2.2) distance with
        | some q, some dirX, some dirY, some dirZ =>
          let force := (1 - q) * mouseInfluence * (1/10)
          some (base.1 + dirX * force, base.2.1 + dirY * force,
                base.2.2 + dirZ * force)
        | _, _, _, _ => none
      else some base
    else some base

/-- The per-particle loop of `update` (src/core/ParticleSystem.ts:259-315),
collecting the flat working-position buffer. -/
def tickLoop (sinF cosF sqrtF : ℚ → ℚ) (options : MergedOptions)
    (positions : List ℚ) (time : ℚ) (pointer : Option (ℚ × ℚ × ℚ)) :
    List ℕ → Option (List ℚ)
  | [] => some []
  | i :: rest =>
    match particleTick sinF cosF sqrtF options positions time pointer i with
    | none => none
    | some (x, y, z) =>
      match tickLoop sinF cosF sqrtF options positions time pointer rest with
      | none => none
      | some ps => some (x :: y :: z :: ps)

/-- `ParticleSystem.update` (src/core/ParticleSystem.ts:251-317): early
return when neither `animated` nor `interactive`; otherwise advance the
clock by `deltaTime * (animationSpeed || 1.0)` and recompute every working
position from the stored `data.positions`. -/
def update (sinF cosF sqrtF : ℚ → ℚ) (st : SystemState) (deltaTime : ℚ)
    (pointer : Option (ℚ × ℚ × ℚ)) : Option SystemState :=
  if st.options.animated = false ∧ st.options.interactive = false then
    some st
  else
    let time := st.time + deltaTime * jsOr st.options.animationSpeed 1
    match tickLoop sinF cosF sqrtF st.options st.data.positions time pointer
        (List.range st.data.count) with
    | none => none
    | some newPositions =>
      some { st with animatedPositions := newPositions, time := time }

/-- C10: construction succeeds exactly when the three cloud length
invariants hold (`positions.length % 3 = 0`, `colors.length = 3·count`,
`sizes.length = count`); any violation throws and no system is published. -/
theorem create_validates (rng : ℕ → ℚ) (data : ParticleData)
    (opts : ParticleOptions) :
    (∃ st, create rng data opts = .ok st) ↔
      (data.positions.length % 3 = 0 ∧
       data.colors.length = data.count * 3 ∧
       data.sizes.length = data.count) := by
  unfold create initGeometryChecks
  split_ifs with h1 h2 h3 <;> simp_all

/-- The early return of `update` (src/core/ParticleSystem.ts:252): with
neither animation nor interactivity the whole state is untouched. -/
theorem update_noop (sinF cosF sqrtF : ℚ → ℚ) (st : SystemState)
    (hA : st.options.animated = false) (hI : st.options.interactive = false)
    (dt : ℚ) (ptr : Option (ℚ × ℚ × ℚ)) :
    update sinF cosF sqrtF st dt ptr = some st := by
  simp [update, hA, hI]

/-- C2: with `animated = false` and `interactive = false`, after any finite
sequence of ticks (arbitrary `deltaTime`s and pointer positions) the
working-position buffer still equals the cloud's original positions. -/
theorem static_system_positions_frozen (rng : ℕ → ℚ)
    (sinF cosF sqrtF : ℚ → ℚ) (data : ParticleData) (opts : ParticleOptions)
    (st0 : SystemState) (hcreate : create rng data opts = .ok st0)
    (hA : (mergeOptions opts).animated = false)
    (hI : (mergeOptions opts).interactive = false)
    (ticks : List (ℚ × Option (ℚ × ℚ × ℚ))) :
    ∃ stFin, ticks.foldlM (fun st t => update sinF cosF sqrtF st t.1 t.2) st0
        = some stFin ∧ stFin.animatedPositions = data.positions := by
  obtain ⟨hopt, hpos⟩ : st0.options = mergeOptions opts ∧
      st0.animatedPositions = data.positions := by
    revert hcreate
    unfold create
    cases h : initGeometryChecks data with
    | error e => intro hc; exact Except.noConfusion hc
    | ok u =>
      intro hc
      simp only [Except.ok.injEq] at hc
      subst hc
      exact ⟨rfl, rfl⟩
  have hid : ∀ ts : List (ℚ × Option (ℚ × ℚ × ℚ)),
      ts.foldlM (fun st t => update sinF cosF sqrtF st t.1 t.2) st0
        = some st0 := by
    intro ts
    induction ts with
    | nil => rfl
    | cons t ts ih =>
      rw [List.foldlM_cons,
        update_noop sinF cosF sqrtF st0 (hopt ▸ hA) (hopt ▸ hI) t.1 t.2]
      simpa using ih
  exact ⟨st0, hid ticks, hpos⟩

/-- Stand-in trig / square-root functions for the concrete tick witnesses
(never reached in the C2 witness; only `sqrt 0 = 0` is relevant in C8's). -/
def sinT : ℚ → ℚ := fun _ => 0

/-- See `sinT`. -/
def cosT : ℚ → ℚ := fun _ => 0

/-- See `sinT`. -/
def sqrtT : ℚ → ℚ := fun _ => 0

/-- Random stream for the tick witnesses: every draw is `0.5`. -/
def rngT : ℕ → ℚ := fun _ => 1/2

/-- A valid 1-particle cloud at `(1, 2, 3)`. -/
def dataT : ParticleData :=
  ⟨[1, 2, 3], [1, 2, 3], [0, 0, 0], [0, 0, 0], [1], 1⟩

/-- All options left `undefined`: every default applies, in particular
`animated = false` and `interactive = false`. -/
def optsT : ParticleOptions := ⟨none, none, none, none, none, none, none, none⟩

/-- The state `create rngT dataT optsT` publishes. -/
def stT : SystemState := ⟨dataT, mergeOptions optsT, [1, 2, 3], [0, 0, 0], 0⟩

/-- Witness for C2: two ticks (one without and one with a pointer) leave the
working positions equal to the original `[1, 2, 3]`. -/
theorem static_system_positions_frozen_witness :
    ∃ stFin, ([((1 : ℚ), (none : Option (ℚ × ℚ × ℚ))),
        ((2 : ℚ), some ((5 : ℚ), (5 : ℚ), (5 : ℚ)))].foldlM
        (fun st t => update sinT cosT sqrtT st t.1 t.2) stT) = some stFin ∧
      stFin.animatedPositions = dataT.positions :=
  static_system_positions_frozen rngT sinT cosT sqrtT dataT optsT stT
    (by
      simp [create, initGeometryChecks, dataT, optsT, stT, mergeOptions,
        rngT, List.range_succ])
    rfl rfl _

/-- A 1-particle cloud sitting at the origin, `interactive` enabled. -/
def data8 : ParticleData :=
  ⟨[0, 0, 0], [0, 0, 0], [0, 0, 0], [0, 0, 0], [1], 1⟩

/-- Options with `interactive: true` and default `mouseRadius = 2`. -/
def opts8 : ParticleOptions :=
  ⟨some false, none, none, none, none, some true, none, none⟩

/-- The state `create` publishes for `data8`/`opts8`. -/
def st8 : SystemState := ⟨data8, mergeOptions opts8, [0, 0, 0], [0, 0, 0], 0⟩

/-- C8 (code bug): when the pointer's world point coincides with a particle
(`d = 0 < mouseRadius = 2`), the engine divides `0 / 0` computing the push
direction (src/core/ParticleSystem.ts:302-304) — there is no arbitrary-unit-
direction special case, so the working position becomes `NaN` (modelled:
the tick is poisoned to `none`). -/
theorem pointer_zero_distance_nan (sinF cosF sqrtF : ℚ → ℚ)
    (h0 : sqrtF 0 = 0) (dt : ℚ) :
    update sinF cosF sqrtF st8 dt (some (0, 0, 0)) = none := by
  simp [update, st8, opts8, data8, mergeOptions, tickLoop, particleTick,
    particleAt, distSq, jsOr, jsDiv, h0]

/-- Witness for C8 at concrete trig/sqrt stand-ins and `deltaTime = 1`. -/
theorem pointer_zero_distance_nan_witness :
    update sinT cosT sqrtT st8 1 (some (0, 0, 0)) = none :=
  pointer_zero_distance_nan sinT cosT sqrtT rfl 1

/-- Over the reals `sqrt d ≤ m ↔ (0 ≤ m ∧ d ≤ m²)`; stated for any value
`s` behaving as `sqrt d` (`0 ≤ s`, `s² = d`). -/
theorem sqrt_le_iff_sq_le (s m d : ℚ) (hs0 : 0 ≤ s) (hs : s ^ 2 = d) :
    s ≤ m ↔ (0 ≤ m ∧ d ≤ m ^ 2) := by
  constructor
  · intro h
    exact ⟨le_trans hs0 h, by nlinarith⟩
  · rintro ⟨hm, hd⟩
    nlinarith

/-- A `flatMap` whose body always emits `c` elements multiplies the length
by `c`. -/
theorem length_flatMap_const (c : ℕ) (l : List ℕ) (f : ℕ → List ℚ)
    (hf : ∀ j ∈ l, (f j).length = c) :
    (l.flatMap f).length = c * l.length := by
  induction l with
  | nil => simp
  | cons a l ih =>
    rw [List.flatMap_cons, List.length_append,
      hf a (List.mem_cons_self _ _),
      ih (fun j hj => hf j (List.mem_cons_of_mem _ hj))]
    simp [Nat.mul_succ]
    omega

/-- C3 (amended): the builder emits a segment for exactly the pairs
`(i, j)`, `i < j`, whose Euclidean distance is at most the **effective**
threshold `connectionDistance || 1.0`; moreover, when that threshold is
nonnegative and at least every pairwise distance (the `maxDistance = ∞`
case), all `N(N-1)/2` pairs are emitted (`6` floats each,
`3·N·(N-1)` in total). -/
theorem connections_exactly_near_pairs (sqrtF : ℚ → ℚ)
    (data : ParticleData) (options : MergedOptions)
    (hsqrt : ∀ i < data.count, ∀ j < data.count,
      0 ≤ sqrtF (distSq (particleAt data.positions i)
        (particleAt data.positions j)) ∧
      sqrtF (distSq (particleAt data.positions i)
        (particleAt data.positions j)) ^ 2
        = distSq (particleAt data.positions i) (particleAt data.positions j)) :
    connectionSegments sqrtF data options
      = specSegments data.positions data.count
          (jsOr options.connectionDistance 1) ∧
    ((0 ≤ jsOr options.connectionDistance 1 ∧
      ∀ i < data.count, ∀ j < data.count,
        distSq (particleAt data.positions i) (particleAt data.positions j)
          ≤ (jsOr options.connectionDistance 1) ^ 2) →
      (connectionSegments sqrtF data options).length
        = 3 * (data.count * (data.count - 1))) := by
  have hmain : connectionSegments sqrtF data options
      = specSegments data.positions data.count
          (jsOr options.connectionDistance 1) := by
    unfold connectionSegments specSegments
    apply List.flatMap_congr
    intro i hi
    apply List.flatMap_congr
    intro j hj
    have hic : i < data.count := List.mem_range.mp hi
    have hjc : j < data.count := List.mem_range.mp (List.mem_of_mem_drop hj)
    obtain ⟨h0, hsq⟩ := hsqrt i hic j hjc
    exact if_congr (sqrt_le_iff_sq_le _ _ _ h0 hsq) rfl rfl
  refine ⟨hmain, fun h => ?_⟩
  obtain ⟨hm0, hall⟩ := h
  rw [hmain]
  unfold specSegments
  rw [List.length_flatMap]
  have hmap : List.map (List.length ∘ (fun i =>
      ((List.range data.count).drop (i + 1)).flatMap (fun j =>
        if 0 ≤ jsOr options.connectionDistance 1 ∧
            distSq (particleAt data.positions i) (particleAt data.positions j)
              ≤ (jsOr options.connectionDistance 1) ^ 2
        then [(particleAt data.positions i).1,
              (particleAt data.positions i).2.1,
              (particleAt data.positions i).2.2,
              (particleAt data.positions j).1,
              (particleAt data.positions j).2.1,
              (particleAt data.positions j).2.2]
        else []))) (List.range data.count)
      = List.map (fun i => 6 * (data.count - 1 - i))
          (List.range data.count) := by
    apply List.map_congr_left
    intro i hi
    have hic : i < data.count := List.mem_range.mp hi
    simp only [Function.comp]
    rw [length_flatMap_const 6 _ _ ?hbody]
    case hbody =>
      intro j hj
      have hjc : j < data.count := List.mem_range.mp (List.mem_of_mem_drop hj)
      rw [if_pos ⟨hm0, hall i hic j hjc⟩]
      rfl
    rw [List.length_drop, List.length_range]
    omega
  rw [hmap]
  have hsum : (List.map (fun i => 6 * (data.count - 1 - i))
      (List.range data.count)).sum
      = ∑ i in Finset.range data.count, 6 * (data.count - 1 - i) := rfl
  rw [hsum, ← Finset.mul_sum, Finset.sum_range_reflect (fun j => j) data.count]
  have := Finset.sum_range_id_mul_two data.count
  omega

/-- `Math.sqrt` stand-in for the C3 concrete configurations: exact on the
squared distances that occur there (`0` and `1/4`). -/
def sqrtC3 : ℚ → ℚ := fun x => if x = 1/4 then 1/2 else 0

/-- A 2-particle cloud with distinct points `(0,0,0)` and `(1/2,0,0)`. -/
def dataC3 : ParticleData :=
  ⟨[0, 0, 0, 1/2, 0, 0], [0, 0, 0, 1/2, 0, 0], [0, 0, 0, 0, 0, 0],
   [0, 0, 0, 0, 0, 0], [1, 1], 2⟩

/-- Options requesting `connected: true` with `connectionDistance: 0`. -/
def optsC3 : ParticleOptions :=
  ⟨none, none, none, some true, some 0, none, none, none⟩

/-- C3 counterexample: with `connectionDistance = 0` and two distinct points
at distance `1/2` the builder still emits their segment — the `|| 1.0`
default (src/core/ParticleSystem.ts:205) replaces the falsy threshold `0` by
`1.0`, so `maxDistance = 0` cannot actually be configured.  The sqrt
stand-in is exact on the one squared distance that occurs
(`sqrtC3 (1/4) = 1/2 ≥ 0`, `(1/2)² = 1/4`). -/
theorem connection_zero_distance_counterexample :
    (mergeOptions optsC3).connectionDistance = 0 ∧
    particleAt dataC3.positions 0 ≠ particleAt dataC3.positions 1 ∧
    0 ≤ sqrtC3 (distSq (particleAt dataC3.positions 0)
      (particleAt dataC3.positions 1)) ∧
    sqrtC3 (distSq (particleAt dataC3.positions 0)
      (particleAt dataC3.positions 1)) ^ 2
      = distSq (particleAt dataC3.positions 0) (particleAt dataC3.positions 1) ∧
    connectionSegments sqrtC3 dataC3 (mergeOptions optsC3)
      = [0, 0, 0, 1/2, 0, 0] := by
  refine ⟨rfl, ?_, ?_, ?_, ?_⟩
  · norm_num [particleAt, dataC3, Prod.ext_iff]
  · norm_num [particleAt, dataC3, distSq, sqrtC3]
  · norm_num [particleAt, dataC3, distSq, sqrtC3]
  · norm_num [connectionSegments, particleAt, dataC3, optsC3, mergeOptions,
      distSq, sqrtC3, jsOr, List.range_succ]

/-- Witness for the amended C3 on the concrete 2-particle configuration. -/
theorem connections_exactly_near_pairs_witness :
    connectionSegments sqrtC3 dataC3 (mergeOptions optsC3)
      = specSegments dataC3.positions dataC3.count
          (jsOr (mergeOptions optsC3).connectionDistance 1) ∧
    ((0 ≤ jsOr (mergeOptions optsC3).connectionDistance 1 ∧
      ∀ i < dataC3.count, ∀ j < dataC3.count,
        distSq (particleAt dataC3.positions i) (particleAt dataC3.positions j)
          ≤ (jsOr (mergeOptions optsC3).connectionDistance 1) ^ 2) →
      (connectionSegments sqrtC3 dataC3 (mergeOptions optsC3)).length
        = 3 * (dataC3.count * (dataC3.count - 1))) :=
  connections_exactly_near_pairs sqrtC3 dataC3 (mergeOptions optsC3)
    (by
      intro i hi j hj
      have hi2 : i < 2 := hi
      have hj2 : j < 2 := hj
      interval_cases i <;> interval_cases j <;>
        norm_num [particleAt, dataC3, distSq, sqrtC3])

end ParticleSystem

end Atomyze
